import Mathlib

/-!
Shallow embedding of the browser-agent core: element resolution and click
execution (`src/browser/controllers/element_controller.py`), page analysis
state (`src/browser/analyzers/page_analyzer.py`), the agent loop
(`src/agent/agent_graph.py`), session memory (`src/agent/memory.py`) and the
tool decorator (`src/agent/tools.py`).

Machine conventions: Python strings are Lean `String`; Python `None`-able
values are `Option`; Python truthiness of a string `s` is `s ≠ ""`; a Python
function that may raise is modelled with `Except String` where its caller
catches the exception.
-/

namespace BrowserAgent

/-- Python `pat in s` substring test (`"" in s` is `true`). -/
def pyIn (pat s : String) : Bool :=
  s.toList.tails.any (fun t => pat.toList.isPrefixOf t)

/-- Python `s.lower()` (ASCII case mapping, which covers every string the
code compares). -/
def pyLower (s : String) : String := ⟨s.toList.map Char.toLower⟩

/-- Python `s.upper()` (ASCII case mapping). -/
def pyUpper (s : String) : String := ⟨s.toList.map Char.toUpper⟩

/-- Python `s.strip()` as a character list: drop whitespace at both ends. -/
def pyTrim (s : String) : List Char :=
  ((s.toList.dropWhile Char.isWhitespace).reverse.dropWhile
    Char.isWhitespace).reverse

/-- Python `s.strip()`. -/
def pyStrip (s : String) : String := ⟨pyTrim s⟩

/-- Python `s.startswith(h)`. -/
def pyStartsWith (s h : String) : Bool := h.toList.isPrefixOf s.toList

/-- Helper of `pySplitLines`: current-line accumulator held reversed. -/
def pySplitLinesAux : List Char → List Char → List String
  | [], acc => [⟨acc.reverse⟩]
  | '\n' :: rest, acc => (⟨acc.reverse⟩ : String) :: pySplitLinesAux rest []
  | c :: rest, acc => pySplitLinesAux rest (c :: acc)

/-- Python `s.split("\n")`: every `\n` separates, empty pieces kept. -/
def pySplitLines (s : String) : List String := pySplitLinesAux s.toList []

/-- Python truthiness of an optional string: `None` and `""` are falsy. -/
def truthy : Option String → Bool
  | none => false
  | some s => s ≠ ""

/-- Digit-string value; `none` when empty or a non-digit occurs. -/
def digitsVal (cs : List Char) : Option Nat :=
  if cs.isEmpty then none
  else cs.foldl
    (fun acc c =>
      match acc with
      | none => none
      | some n => if c.isDigit then some (n * 10 + (c.toNat - 48)) else none)
    (some 0)

/-- Python `int(s)` on a string: strip whitespace, optional sign, digits;
`none` models a raised `ValueError`.  (The underscore digit-separator
extension of CPython's grammar is not modelled; no input here uses it.) -/
def pyInt (s : String) : Option Int :=
  match pyTrim s with
  | '+' :: rest => (digitsVal rest).map Int.ofNat
  | '-' :: rest => (digitsVal rest).map (fun n => -(n : Int))
  | cs => (digitsVal cs).map Int.ofNat

/-- The attribute sub-dictionary of an element record, with the keys the
resolver reads via `elem.get('attributes', {}).get(key, '')`; a missing key
is the empty string. -/
structure Attrs where
  value : String := ""
  placeholder : String := ""
  ariaLabel : String := ""
  title : String := ""
  role : String := ""
  deriving Repr, DecidableEq

/-- An element record as stored in `page_elements` and read by the resolver:
the dictionary keys accessed by `click`/`select_option`. -/
structure Elem where
  id : Nat
  tagName : String
  type : String
  text : String
  className : String := ""
  cssSelector : String := ""
  visible : Bool := false
  inViewport : Bool := false
  attributes : Attrs := {}
  deriving Repr, DecidableEq

/-- Tier-2 type filter of `click` (element_controller.py lines 85–97):
match on normalized type, tag, or the `button` synonym family. -/
def clickTypeMatch (targetType : Option String) (e : Elem) : Bool :=
  if truthy targetType then
    let tt := targetType.getD ""
    tt == (pyLower e.type) || tt == (pyLower e.tagName) ||
      (tt == "button" &&
        ((pyLower e.tagName) == "button" || (pyLower e.type) == "button" ||
          pyIn "btn" e.className))
  else
    true

/-- Tier-2 text filter of `click` (lines 100–108): case-insensitive substring
of the display text, or exact case-insensitive match of value / placeholder /
aria-label. -/
def clickTextMatch (targetText : Option String) (e : Elem) : Bool :=
  if truthy targetText then
    let t := targetText.getD ""
    pyIn (pyLower t) (pyLower e.text) ||
      (pyLower e.attributes.value) == (pyLower t) ||
      (pyLower e.attributes.placeholder) == (pyLower t) ||
      (pyLower e.attributes.ariaLabel) == (pyLower t)
  else
    true

/-- Post-scroll enhanced type filter of `click` (lines 136–160): adds the
`submit`/role cases to the `button` family and the `input`/`link` families. -/
def clickTypeMatchEnhanced (targetType : Option String) (e : Elem) : Bool :=
  if truthy targetType then
    let tt := targetType.getD ""
    tt == (pyLower e.type) || tt == (pyLower e.tagName) ||
      (tt == "button" &&
        ((pyLower e.tagName) == "button" || (pyLower e.type) == "button" ||
          (pyLower e.type) == "submit" || pyIn "btn" e.className ||
          e.attributes.role == "button")) ||
      (tt == "input" &&
        ((pyLower e.tagName) == "input" || (pyLower e.type) == "input" ||
          ["text", "email", "password", "search", "tel", "url"].contains
            (pyLower e.type))) ||
      (tt == "link" &&
        ((pyLower e.tagName) == "a" || (pyLower e.type) == "link" ||
          e.attributes.role == "link"))
  else
    true

/-- Post-scroll enhanced text filter of `click` (lines 162–179): adds the
title field and substring matches over all four attribute fields. -/
def clickTextMatchEnhanced (targetText : Option String) (e : Elem) : Bool :=
  if truthy targetText then
    let t := targetText.getD ""
    pyIn (pyLower t) (pyLower e.text) ||
      (pyLower e.attributes.value) == (pyLower t) ||
      (pyLower e.attributes.placeholder) == (pyLower t) ||
      (pyLower e.attributes.ariaLabel) == (pyLower t) ||
      (pyLower e.attributes.title) == (pyLower t) ||
      [e.attributes.value, e.attributes.placeholder, e.attributes.ariaLabel,
        e.attributes.title].any (fun f => f ≠ "" && pyIn (pyLower t) (pyLower f))
  else
    true

/-- Type filter of `select_option` (lines 455–467), used both before and
after the scroll: adds the `dropdown` synonym family. -/
def selectTypeMatch (targetType : Option String) (e : Elem) : Bool :=
  if truthy targetType then
    let tt := targetType.getD ""
    tt == (pyLower e.type) || tt == (pyLower e.tagName) ||
      (tt == "dropdown" &&
        ((pyLower e.tagName) == "select" || (pyLower e.type) == "dropdown" ||
          e.attributes.role == "listbox"))
  else
    true

/-- Attribute search over the snapshot (lines 77–118): collect all matches,
prefer the first visible-and-in-viewport one, else the first match. -/
def attributeSearch (typeM textM : Elem → Bool) (els : List Elem) :
    Option Elem :=
  let matching := els.filter (fun e => typeM e && textM e)
  let vis := matching.filter (fun e => e.visible && e.inViewport)
  match vis with
  | v :: _ => some v
  | [] => matching.head?

/-- Direct index lookup (lines 60–71): guarded by `target_id is not None and
page_elements`; `int(target_id)` failing (ValueError/TypeError) or the bounds
check failing leaves the element unset. -/
def directLookup (els : List Elem) (targetId : Option String) : Option Elem :=
  match targetId with
  | none => none
  | some s =>
    if els.isEmpty then none
    else
      match pyInt s with
      | none => none
      | some k => if 0 ≤ k ∧ k.toNat < els.length then els[k.toNat]? else none

/-- The failure-message criteria list (line 188): `k=v` for each truthy field
of `{'id': …, 'type': …, 'text': …}` in insertion order. -/
def criteriaStr (tid tt tx : Option String) : String :=
  String.intercalate ", "
    (([("id", tid), ("type", tt), ("text", tx)] : List (String × Option String))
      |>.filterMap (fun p =>
        if truthy p.2 then some (p.1 ++ "=" ++ p.2.getD "") else none))

/-- Not-found message of `click` (lines 186–191). -/
def clickNotFoundMsg (tid tt tx : Option String) (isStructured : Bool)
    (desc : String) : String :=
  if isStructured then
    "No elements matching " ++ criteriaStr tid tt tx ++
      " found, even after scrolling."
  else
    "No elements matching '" ++ desc ++ "' found, even after scrolling."

/-- Not-found message of `select_option` (lines 536–541). -/
def selectNotFoundMsg (tid tt tx : Option String) (isStructured : Bool)
    (desc : String) : String :=
  if isStructured then
    "No dropdown matching " ++ criteriaStr tid tt tx ++
      " found, even after scrolling."
  else
    "No dropdown matching '" ++ desc ++ "' found, even after scrolling."

/-- The browser-side state the resolver touches: the module-global
`page_analyzer.page_elements`, plus the snapshot that `analyze_page()` will
produce for the post-scroll DOM (an abstraction of `page.evaluate`). -/
structure World where
  analyzerElements : List Elem
  rescanElements : List Elem
  deriving Repr, DecidableEq

/-- Outcome of the resolution phase of `click`/`select_option`: the chosen
element (if any), how many `scroll`/`analyze_page` calls were issued, the
final analyzer state, and the not-found message when no element was chosen. -/
structure ResolveOut where
  element : Option Elem
  scrolls : Nat
  analyzes : Nat
  world : World
  notFound : Option String
  deriving Repr, DecidableEq

/-- Resolution phase of `click` (lines 53–191).  `els` is the function-local
binding created by `from browser.analyzers.page_analyzer import page_elements`
at call time; the `analyze_page()` call inside the scroll-and-rescan block
reassigns the module global but does not rebind this local, so the rescan
loop (lines 130–183) iterates the pre-scroll list. -/
def clickResolve (w : World) (tid tt tx : Option String) (isStructured : Bool)
    (desc : String) : ResolveOut :=
  let els := w.analyzerElements
  let e0 := directLookup els tid
  let e1 :=
    match e0 with
    | some e => some e
    | none =>
      if els.isEmpty then none
      else attributeSearch (clickTypeMatch tt) (clickTextMatch tx) els
  match e1 with
  | some e => ⟨some e, 0, 0, w, none⟩
  | none =>
    if els.isEmpty then
      ⟨none, 0, 0, w, some (clickNotFoundMsg tid tt tx isStructured desc)⟩
    else
      let w' := { w with analyzerElements := w.rescanElements }
      let e2 := els.find? (fun e =>
        clickTypeMatchEnhanced tt e && clickTextMatchEnhanced tx e)
      match e2 with
      | some e => ⟨some e, 1, 1, w', none⟩
      | none =>
        ⟨none, 1, 1, w',
          some (clickNotFoundMsg tid tt tx isStructured desc)⟩

/-- Resolution phase of `select_option` (lines 426–541); same shape as
`clickResolve`, with the dropdown synonym family and with the *same* (not
enhanced) filters re-run after the scroll; it has the same stale-local
`page_elements` binding. -/
def selectResolve (w : World) (tid tt tx : Option String) (isStructured : Bool)
    (desc : String) : ResolveOut :=
  let els := w.analyzerElements
  let e0 := directLookup els tid
  let e1 :=
    match e0 with
    | some e => some e
    | none =>
      if els.isEmpty then none
      else attributeSearch (selectTypeMatch tt) (clickTextMatch tx) els
  match e1 with
  | some e => ⟨some e, 0, 0, w, none⟩
  | none =>
    if els.isEmpty then
      ⟨none, 0, 0, w, some (selectNotFoundMsg tid tt tx isStructured desc)⟩
    else
      let w' := { w with analyzerElements := w.rescanElements }
      let e2 := els.find? (fun e =>
        selectTypeMatch tt e && clickTextMatch tx e)
      match e2 with
      | some e => ⟨some e, 1, 1, w', none⟩
      | none =>
        ⟨none, 1, 1, w',
          some (selectNotFoundMsg tid tt tx isStructured desc)⟩

/-- Outcome of one backend call that either succeeds or raises. -/
inductive SOut where
  | ok
  | exn (msg : String)
  deriving Repr, DecidableEq

/-- Outcome of the strategy-4 `page.evaluate` text-search call: the page
function returns `true` or `false`, or the call raises. -/
inductive S4Out where
  | found
  | notFound
  | exn (msg : String)
  deriving Repr, DecidableEq

/-- The behaviour of the browser backend for one click attempt: what each of
the five strategy calls would do if invoked. -/
structure ClickBackend where
  s1 : SOut
  s2 : SOut
  s3 : SOut
  s4 : S4Out
  s5 : SOut
  deriving Repr, DecidableEq

/-- Whether strategy `i` reports success when invoked against backend `b`.
Strategy 5 reports success whenever its `page.evaluate` call does not raise
(the code sets `click_success = True` without inspecting the returned
value). -/
def stratSuccess (b : ClickBackend) : Nat → Bool
  | 1 => match b.s1 with | .ok => true | .exn _ => false
  | 2 => match b.s2 with | .ok => true | .exn _ => false
  | 3 => match b.s3 with | .ok => true | .exn _ => false
  | 4 => match b.s4 with | .found => true | _ => false
  | 5 => match b.s5 with | .ok => true | .exn _ => false
  | _ => false

/-- Result of the click-strategy cascade: final success flag, accumulated
`error_messages`, the strategies that were invoked, and the returned
message. -/
structure ClickOutcome where
  success : Bool
  errors : List String
  attempted : List Nat
  message : String
  deriving Repr, DecidableEq

/-- The click-strategy cascade (element_controller.py lines 199–290).
`hasSel` is the truthiness of `element.get('cssSelector')`, which guards
strategies 2, 3 and 5; strategy 4's `page.evaluate` may succeed yet report
the element missing, which appends an error without raising. -/
def clickExec (etype etext : String) (hasSel : Bool) (b : ClickBackend) :
    ClickOutcome :=
  let st1 : Bool × List String × List Nat :=
    match b.s1 with
    | .ok => (true, [], [1])
    | .exn e => (false, ["Coordinate click failed: " ++ e], [1])
  let st2 : Bool × List String × List Nat :=
    if !st1.1 && hasSel then
      match b.s2 with
      | .ok => (true, st1.2.1, st1.2.2 ++ [2])
      | .exn e =>
        (false, st1.2.1 ++ ["CSS selector click failed: " ++ e],
          st1.2.2 ++ [2])
    else st1
  let st3 : Bool × List String × List Nat :=
    if !st2.1 && hasSel then
      match b.s3 with
      | .ok => (true, st2.2.1, st2.2.2 ++ [3])
      | .exn e =>
        (false, st2.2.1 ++ ["JavaScript click failed: " ++ e],
          st2.2.2 ++ [3])
    else st2
  let st4 : Bool × List String × List Nat :=
    if !st3.1 then
      match b.s4 with
      | .found => (true, st3.2.1, st3.2.2 ++ [4])
      | .notFound =>
        (false,
          st3.2.1 ++ ["JavaScript text search click failed: element not found"],
          st3.2.2 ++ [4])
      | .exn e =>
        (false, st3.2.1 ++ ["JavaScript text search click failed: " ++ e],
          st3.2.2 ++ [4])
    else st3
  let st5 : Bool × List String × List Nat :=
    if !st4.1 && hasSel then
      match b.s5 with
      | .ok => (true, st4.2.1, st4.2.2 ++ [5])
      | .exn e =>
        (false, st4.2.1 ++ ["Event dispatch click failed: " ++ e],
          st4.2.2 ++ [5])
    else st4
  if st5.1 then
    ⟨true, st5.2.1, st5.2.2,
      "Clicked on element: " ++ etype ++ " with text '" ++ etext ++ "'"⟩
  else
    ⟨false, st5.2.1, st5.2.2,
      "Failed to click element after trying multiple methods. Errors: " ++
        String.intercalate "; " st5.2.1⟩

/-- One tool call requested by the assistant (`{name, args, id}`); the
argument dictionary is kept opaque as a string. -/
structure ToolCall where
  name : String
  args : String
  id : String
  deriving Repr, DecidableEq

/-- The assistant message an inference call returns. -/
structure AIMsg where
  content : String
  tool_calls : List ToolCall
  deriving Repr, DecidableEq

/-- A conversation message (agent/messages.py roles). -/
inductive Msg where
  | system (content : String)
  | human (content : String)
  | ai (content : String) (tool_calls : List ToolCall)
  | tool (content : String) (tool_call_id : String)
  deriving Repr, DecidableEq

/-- A registered tool's `invoke`: returns the stringified result or raises
(the exception text). -/
def ToolFn : Type := String → Except String String

/-- Dispatch of one tool call (agent_graph.py lines 62–87): look the name up
in `tool_map` (modelled as an association list with distinct keys), invoke it
catching any exception, or report the tool missing. -/
def dispatchToolCall (toolMap : List (String × ToolFn)) (tc : ToolCall) :
    Msg :=
  match toolMap.lookup tc.name with
  | some f =>
    match f tc.args with
    | .ok r => .tool r tc.id
    | .error e => .tool ("Error executing " ++ tc.name ++ ": " ++ e) tc.id
  | none => .tool ("Tool " ++ tc.name ++ " not found") tc.id

/-- Process the tool calls of one assistant turn in order, appending one tool
message each. -/
def runToolCalls (toolMap : List (String × ToolFn)) (tcs : List ToolCall)
    (msgs : List Msg) : List Msg :=
  tcs.foldl (fun ms tc => ms ++ [dispatchToolCall toolMap tc]) msgs

/-- What `AgentExecutor.invoke` returns, extended with a count of the
inference calls made. -/
structure InvokeResult where
  output : String
  messages : List Msg
  llmCalls : Nat
  deriving Repr, DecidableEq

/-- The `while iteration < self.max_iterations` loop of
`AgentExecutor.invoke` (agent_graph.py lines 36–102), with the remaining
iteration budget as fuel.  `llm` abstracts `self.llm.invoke`, a function of
the message history.  `self.memory` is `None` (its default), so the memory
branches are skipped. -/
def invokeAux (llm : List Msg → AIMsg) (toolMap : List (String × ToolFn))
    (maxIterations : Nat) : Nat → List Msg → Nat → InvokeResult
  | 0, msgs, calls =>
    ⟨"Max iterations (" ++ toString maxIterations ++
      ") reached without completion", msgs, calls⟩
  | n + 1, msgs, calls =>
    let response := llm msgs
    let msgs1 := msgs ++ [.ai response.content response.tool_calls]
    if response.tool_calls.isEmpty then
      ⟨response.content, msgs1, calls + 1⟩
    else
      invokeAux llm toolMap maxIterations n
        (runToolCalls toolMap response.tool_calls msgs1) (calls + 1)

/-- `AgentExecutor.invoke` (agent_graph.py lines 22–102) with no memory
attached. -/
def agentInvoke (llm : List Msg → AIMsg) (toolMap : List (String × ToolFn))
    (systemPrompt inputText : String) (maxIterations : Nat) : InvokeResult :=
  invokeAux llm toolMap maxIterations maxIterations
    [.system systemPrompt, .human inputText] 0

/-- A stored memory message; `timestamp`, `tool_calls` and `metadata` are
also stored by `add_message` but are never read by any operation verified
here. -/
structure MemMsg where
  role : String
  content : String
  deriving Repr, DecidableEq

/-- The `Memory` base class state (memory.py lines 14–17). -/
structure PyMemory where
  messages : List MemMsg
  max_size : Nat
  deriving Repr, DecidableEq

/-- `Memory.add_message` (lines 19–32): append, then `pop(0)` once when the
length exceeds `max_size`. -/
def addMessage (mem : PyMemory) (role content : String) : PyMemory :=
  let ms := mem.messages ++ [⟨role, content⟩]
  { mem with messages := if ms.length > mem.max_size then ms.tail else ms }

/-- `Memory.get_last_n_messages` (lines 52–54): Python `messages[-n:]` when
`len(messages) >= n`, else the whole list.  For `n = 0` the slice `[-0:]` is
`[0:]`, the whole list. -/
def getLastN (mem : PyMemory) (n : Nat) : List MemMsg :=
  if mem.messages.length ≥ n then
    if n = 0 then mem.messages else mem.messages.drop (mem.messages.length - n)
  else mem.messages

/-- The `content[:200] + "..." if len(content) > 200 else content`
truncation of `get_context_window`. -/
def truncate200 (content : String) : String :=
  if content.length > 200 then (⟨content.toList.take 200⟩ : String) ++ "..."
  else content

/-- The formatted lines `get_context_window` builds (lines 66–70). -/
def contextLines (mem : PyMemory) (maxMessages : Nat) : List String :=
  (getLastN mem maxMessages).map
    (fun m => (pyUpper m.role) ++ ": " ++ truncate200 m.content)

/-- `Memory.get_context_window` (lines 60–72). -/
def getContextWindow (mem : PyMemory) (maxMessages : Nat) : String :=
  if (getLastN mem maxMessages).isEmpty then ""
  else String.intercalate "\n" (contextLines mem maxMessages)

/-- The effect of `SessionMemory.add_exchange` (memory.py lines 157–173) on
`conversation.messages`: one user message then one assistant message.  The
optional task record and the interaction counter write to `task_history` and
`context.context`, fields disjoint from `messages` that no operation
verified here reads. -/
def addExchange (conversation : PyMemory) (humanInput aiResponse : String) :
    PyMemory :=
  addMessage (addMessage conversation "user" humanInput)
    "assistant" aiResponse

/-- Fold a list of exchanges into the conversation memory. -/
def addExchanges (conversation : PyMemory)
    (exchanges : List (String × String)) : PyMemory :=
  exchanges.foldl (fun m p => addExchange m p.1 p.2) conversation

/-- The interleaved message sequence a list of exchanges appends. -/
def exchangeMsgs (exchanges : List (String × String)) : List MemMsg :=
  exchanges.flatMap (fun p => [⟨"user", p.1⟩, ⟨"assistant", p.2⟩])

/-- The last `k` entries of a list (`l[-k:]` for `k ≥ 1`). -/
def keepLast (k : Nat) (l : List MemMsg) : List MemMsg :=
  l.drop (l.length - k)

/-- The docstring section headers recognized by `Tool.__init__`
(tools.py line 27). -/
def sectionHeaders : List String :=
  ["Parameters:", "Returns:", "Examples:", "Example:", "Args:",
    "Input format:", "Usage:", "Raises:", "Attributes:", "Input:"]

/-- Whether a stripped docstring line starts a recognized section. -/
def isSectionHeader (s : String) : Bool :=
  sectionHeaders.any (fun h => pyStartsWith s h)

/-- The line-collection loop of `Tool.__init__` (tools.py lines 25–30):
walk the lines of the stripped docstring, stop at the first recognized
section header, keep the stripped non-empty lines. -/
def collectDescLines : List String → List String
  | [] => []
  | l :: rest =>
    let s := pyStrip l
    if isSectionHeader s then []
    else if s ≠ "" then s :: collectDescLines rest
    else collectDescLines rest

/-- The derived tool description for a function with docstring `doc` and no
explicit description argument (tools.py lines 19–34). -/
def toolDescription (doc : String) : String :=
  if doc ≠ "" then
    let collected := collectDescLines (pySplitLines (pyStrip doc))
    if collected.isEmpty then "" else String.intercalate " " collected
  else ""

/-- Modelled from the spec's words, for comparison with `toolDescription`:
"the docstring's leading documentation paragraph used verbatim, stopping at
the first line that starts with a recognized section header" — the lines of
the stripped docstring up to the first blank line or section header, kept
as written. -/
def specLeadingParagraph (doc : String) : String :=
  String.intercalate "\n"
    ((pySplitLines (pyStrip doc)).takeWhile
      (fun l => pyStrip l ≠ "" && !isSectionHeader (pyStrip l)))

/-! ### Theorems -/

/-- C3: a target whose `id` parses as an integer `k` with
`0 ≤ k < len(page_elements)` resolves to the record at index `k`
unconditionally, for every type/text constraint in the same request, with no
scroll or re-analysis. -/
theorem click_id_short_circuits (w : World) (s : String) (k : Int)
    (tt tx : Option String) (isS : Bool) (d : String)
    (hne : w.analyzerElements ≠ [])
    (hparse : pyInt s = some k) (hk0 : 0 ≤ k)
    (hlt : k.toNat < w.analyzerElements.length) :
    (clickResolve w (some s) tt tx isS d).element =
      w.analyzerElements[k.toNat]? ∧
    (clickResolve w (some s) tt tx isS d).scrolls = 0 ∧
    (clickResolve w (some s) tt tx isS d).analyzes = 0 := by
  have hemp : w.analyzerElements.isEmpty = false := by
    simp [List.isEmpty_iff, hne]
  have hd : directLookup w.analyzerElements (some s) =
      w.analyzerElements[k.toNat]? := by
    simp [directLookup, hemp, hparse, hk0, hlt]
  have hsome : w.analyzerElements[k.toNat]? =
      some w.analyzerElements[k.toNat] := List.getElem?_eq_getElem hlt
  simp [clickResolve, hd, hsome]

/-- Witness for C3 at a concrete snapshot of two records and a conflicting
type/text constraint. -/
theorem click_id_short_circuits_witness :
    (clickResolve
        ⟨[{ id := 0, tagName := "A", type := "link", text := "Home" },
          { id := 1, tagName := "BUTTON", type := "button", text := "Go" }],
          []⟩
        (some "1") (some "link") (some "Home") true "t").element =
      some { id := 1, tagName := "BUTTON", type := "button", text := "Go" } := by
  have h := click_id_short_circuits
    ⟨[{ id := 0, tagName := "A", type := "link", text := "Home" },
      { id := 1, tagName := "BUTTON", type := "button", text := "Go" }], []⟩
    "1" 1 (some "link") (some "Home") true "t"
    (by decide) (by decide) (by decide) (by decide)
  exact h.1.trans (by decide)

/-- C7: a target id that is non-numeric or out of range does not fail the
call; the direct lookup yields nothing and the resolved element is the one
the attribute (type/text) search over the current snapshot produces, exactly
as if no id had been supplied. -/
theorem click_bad_id_falls_through (w : World) (s : String)
    (tt tx : Option String) (isS : Bool) (d : String)
    (hne : w.analyzerElements ≠ [])
    (hbad : pyInt s = none ∨
      ∀ k, pyInt s = some k →
        ¬(0 ≤ k ∧ k.toNat < w.analyzerElements.length)) :
    directLookup w.analyzerElements (some s) = none ∧
    (clickResolve w (some s) tt tx isS d).element =
      (clickResolve w none tt tx isS d).element := by
  have hemp : w.analyzerElements.isEmpty = false := by
    simp [List.isEmpty_iff, hne]
  have hd : directLookup w.analyzerElements (some s) = none := by
    rcases hbad with h | h
    · simp [directLookup, hemp, h]
    · rcases hp : pyInt s with _ | k
      · simp [directLookup, hemp, hp]
      · simp [directLookup, hemp, hp, h k hp]
  refine ⟨hd, ?_⟩
  have hnone : directLookup w.analyzerElements none = none := rfl
  rcases h2 : attributeSearch (clickTypeMatch tt) (clickTextMatch tx)
      w.analyzerElements with _ | e
  · rcases h3 : w.analyzerElements.find? (fun e =>
        clickTypeMatchEnhanced tt e && clickTextMatchEnhanced tx e) with _ | e
    · simp [clickResolve, hd, hnone, hemp, h2, h3]
    · simp [clickResolve, hd, hnone, hemp, h2, h3]
  · simp [clickResolve, hd, hnone, hemp, h2]

/-- Witness for C7: the id "zz" is non-numeric, and the attribute search
still finds the button. -/
theorem click_bad_id_falls_through_witness :
    directLookup
        [{ id := 0, tagName := "BUTTON", type := "button", text := "Go" }]
        (some "zz") = none ∧
    (clickResolve
        ⟨[{ id := 0, tagName := "BUTTON", type := "button", text := "Go" }],
          []⟩
        (some "zz") none (some "go") true "t").element =
      (clickResolve
        ⟨[{ id := 0, tagName := "BUTTON", type := "button", text := "Go" }],
          []⟩
        none none (some "go") true "t").element := by
  exact click_bad_id_falls_through
    ⟨[{ id := 0, tagName := "BUTTON", type := "button", text := "Go" }], []⟩
    "zz" none (some "go") true "t" (by decide) (Or.inl (by decide))

/-- C10: with an empty snapshot, `click` and `select_option` return their
not-found message immediately: no attribute search can select anything, no
scroll is issued and no re-analysis runs. -/
theorem empty_snapshot_skips_rescan (w : World) (tid tt tx : Option String)
    (isS : Bool) (d : String) (h : w.analyzerElements = []) :
    clickResolve w tid tt tx isS d =
      ⟨none, 0, 0, w, some (clickNotFoundMsg tid tt tx isS d)⟩ ∧
    selectResolve w tid tt tx isS d =
      ⟨none, 0, 0, w, some (selectNotFoundMsg tid tt tx isS d)⟩ := by
  have hd : directLookup [] tid = none := by
    rcases tid with _ | s <;> rfl
  constructor <;> simp [clickResolve, selectResolve, h, hd]

/-- Witness for C10 at a concrete empty-snapshot world and a structured
target. -/
theorem empty_snapshot_skips_rescan_witness :
    clickResolve ⟨[], []⟩ (some "3") (some "button") (some "Go") true "t" =
      ⟨none, 0, 0, ⟨[], []⟩,
        some "No elements matching id=3, type=button, text=Go found, even after scrolling."⟩ ∧
    selectResolve ⟨[], []⟩ (some "3") (some "dropdown") (some "Go") true "t" =
      ⟨none, 0, 0, ⟨[], []⟩,
        some "No dropdown matching id=3, type=dropdown, text=Go found, even after scrolling."⟩ := by
  have h := empty_snapshot_skips_rescan ⟨[], []⟩ (some "3") (some "button")
    (some "Go") true "t" rfl
  have h' := empty_snapshot_skips_rescan ⟨[], []⟩ (some "3") (some "dropdown")
    (some "Go") true "t" rfl
  exact ⟨h.1.trans (by decide), h'.2.trans (by decide)⟩

/-- C1: after the scroll, `analyze_page()` rebinds the module-global
`page_elements`, but the rescan loop iterates the function-local list bound
by the import at call entry.  Here the post-scroll snapshot contains a
button passing the enhanced tier-2 filter for text "submit", yet `click`
reports not-found: the re-filter ran on the pre-scroll snapshot. -/
theorem rescan_filters_pre_scroll_snapshot :
    (clickResolve
        ⟨[{ id := 0, tagName := "BUTTON", type := "button", text := "foo" }],
          [{ id := 0, tagName := "BUTTON", type := "button", text := "Submit" }]⟩
        none none (some "submit") true "t").analyzes = 1 ∧
    (clickResolve
        ⟨[{ id := 0, tagName := "BUTTON", type := "button", text := "foo" }],
          [{ id := 0, tagName := "BUTTON", type := "button", text := "Submit" }]⟩
        none none (some "submit") true "t").world.analyzerElements =
      [{ id := 0, tagName := "BUTTON", type := "button", text := "Submit" }] ∧
    ([{ id := 0, tagName := "BUTTON", type := "button", text := "Submit" }] :
        List Elem).find?
      (fun e => clickTypeMatchEnhanced none e &&
        clickTextMatchEnhanced (some "submit") e) =
      some { id := 0, tagName := "BUTTON", type := "button", text := "Submit" } ∧
    (clickResolve
        ⟨[{ id := 0, tagName := "BUTTON", type := "button", text := "foo" }],
          [{ id := 0, tagName := "BUTTON", type := "button", text := "Submit" }]⟩
        none none (some "submit") true "t").element = none ∧
    (clickResolve
        ⟨[{ id := 0, tagName := "BUTTON", type := "button", text := "foo" }],
          [{ id := 0, tagName := "BUTTON", type := "button", text := "Submit" }]⟩
        none none (some "submit") true "t").notFound =
      some "No elements matching text=submit found, even after scrolling." := by
  decide

/-- Helper: the resolution phase of `click` issues at most one scroll and
one re-analysis, on every input. -/
theorem clickResolve_counts_le (w : World) (tid tt tx : Option String)
    (isS : Bool) (d : String) :
    (clickResolve w tid tt tx isS d).scrolls ≤ 1 ∧
    (clickResolve w tid tt tx isS d).analyzes ≤ 1 := by
  unfold clickResolve
  refine ⟨?_, ?_⟩ <;> (dsimp only; repeat' split) <;> simp

/-- Helper: the resolution phase of `select_option` issues at most one
scroll and one re-analysis, on every input. -/
theorem selectResolve_counts_le (w : World) (tid tt tx : Option String)
    (isS : Bool) (d : String) :
    (selectResolve w tid tt tx isS d).scrolls ≤ 1 ∧
    (selectResolve w tid tt tx isS d).analyzes ≤ 1 := by
  unfold selectResolve
  refine ⟨?_, ?_⟩ <;> (dsimp only; repeat' split) <;> simp

/-- Helper: when the snapshot is non-empty and both the direct lookup and
the attribute search fail, `click` runs exactly one scroll-and-rescan cycle
and, if that also fails, returns the criteria-enumerating message. -/
theorem clickResolve_one_cycle (w : World) (tid tt tx : Option String)
    (isS : Bool) (d : String) (hne : w.analyzerElements ≠ [])
    (hd : directLookup w.analyzerElements tid = none)
    (h2 : attributeSearch (clickTypeMatch tt) (clickTextMatch tx)
      w.analyzerElements = none) :
    (clickResolve w tid tt tx isS d).scrolls = 1 ∧
    (clickResolve w tid tt tx isS d).analyzes = 1 ∧
    ((clickResolve w tid tt tx isS d).element = none →
      (clickResolve w tid tt tx isS d).notFound =
        some (clickNotFoundMsg tid tt tx isS d)) := by
  have hemp : w.analyzerElements.isEmpty = false := by
    simp [List.isEmpty_iff, hne]
  rcases h3 : w.analyzerElements.find? (fun e =>
      clickTypeMatchEnhanced tt e && clickTextMatchEnhanced tx e) with _ | e <;>
    simp [clickResolve, hd, hemp, h2, h3]

/-- Helper: the `select_option` analogue of `clickResolve_one_cycle`. -/
theorem selectResolve_one_cycle (w : World) (tid tt tx : Option String)
    (isS : Bool) (d : String) (hne : w.analyzerElements ≠ [])
    (hd : directLookup w.analyzerElements tid = none)
    (h2 : attributeSearch (selectTypeMatch tt) (clickTextMatch tx)
      w.analyzerElements = none) :
    (selectResolve w tid tt tx isS d).scrolls = 1 ∧
    (selectResolve w tid tt tx isS d).analyzes = 1 ∧
    ((selectResolve w tid tt tx isS d).element = none →
      (selectResolve w tid tt tx isS d).notFound =
        some (selectNotFoundMsg tid tt tx isS d)) := by
  have hemp : w.analyzerElements.isEmpty = false := by
    simp [List.isEmpty_iff, hne]
  rcases h3 : w.analyzerElements.find? (fun e =>
      selectTypeMatch tt e && clickTextMatch tx e) with _ | e <;>
    simp [selectResolve, hd, hemp, h2, h3]

/-- C5 counterexample: a click whose target matches nothing in the attribute
search (the snapshot is empty, so nothing can match) performs zero
scroll-and-rescan cycles before returning its not-found message, not exactly
one as claimed. -/
theorem scroll_rescan_zero_cycles_on_empty :
    attributeSearch (clickTypeMatch (some "button"))
      (clickTextMatch (some "Go")) ([] : List Elem) = none ∧
    (clickResolve ⟨[], []⟩ none (some "button") (some "Go") true "t").scrolls
      = 0 ∧
    (clickResolve ⟨[], []⟩ none (some "button") (some "Go") true "t").notFound
      ≠ none := by
  decide

/-- C5 (amended to non-empty snapshots): `click` and `select_option` never
perform more than one scroll-and-rescan cycle, and when the snapshot is
non-empty and the direct lookup and attribute search both fail they perform
exactly one (one scroll, one re-analysis, one re-filter) before returning
the criteria-enumerating not-found message. -/
theorem scroll_rescan_exactly_one_cycle (w : World) (tid tt tx : Option String)
    (isS : Bool) (d : String) :
    ((clickResolve w tid tt tx isS d).scrolls ≤ 1 ∧
      (clickResolve w tid tt tx isS d).analyzes ≤ 1 ∧
      (selectResolve w tid tt tx isS d).scrolls ≤ 1 ∧
      (selectResolve w tid tt tx isS d).analyzes ≤ 1) ∧
    (w.analyzerElements ≠ [] →
      directLookup w.analyzerElements tid = none →
      attributeSearch (clickTypeMatch tt) (clickTextMatch tx)
          w.analyzerElements = none →
      (clickResolve w tid tt tx isS d).scrolls = 1 ∧
      (clickResolve w tid tt tx isS d).analyzes = 1 ∧
      ((clickResolve w tid tt tx isS d).element = none →
        (clickResolve w tid tt tx isS d).notFound =
          some (clickNotFoundMsg tid tt tx isS d))) ∧
    (w.analyzerElements ≠ [] →
      directLookup w.analyzerElements tid = none →
      attributeSearch (selectTypeMatch tt) (clickTextMatch tx)
          w.analyzerElements = none →
      (selectResolve w tid tt tx isS d).scrolls = 1 ∧
      (selectResolve w tid tt tx isS d).analyzes = 1 ∧
      ((selectResolve w tid tt tx isS d).element = none →
        (selectResolve w tid tt tx isS d).notFound =
          some (selectNotFoundMsg tid tt tx isS d))) := by
  refine ⟨⟨(clickResolve_counts_le w tid tt tx isS d).1,
    (clickResolve_counts_le w tid tt tx isS d).2,
    (selectResolve_counts_le w tid tt tx isS d).1,
    (selectResolve_counts_le w tid tt tx isS d).2⟩, ?_, ?_⟩
  · exact fun hne hd h2 => clickResolve_one_cycle w tid tt tx isS d hne hd h2
  · exact fun hne hd h2 => selectResolve_one_cycle w tid tt tx isS d hne hd h2

/-- Witness for the amended C5 at a concrete one-button snapshot and a text
target matching nothing. -/
theorem scroll_rescan_exactly_one_cycle_witness :
    (clickResolve
        ⟨[{ id := 0, tagName := "BUTTON", type := "button", text := "foo" }],
          []⟩ none none (some "zzz") true "t").scrolls = 1 ∧
    (selectResolve
        ⟨[{ id := 0, tagName := "BUTTON", type := "button", text := "foo" }],
          []⟩ none none (some "zzz") true "t").scrolls = 1 := by
  have h := scroll_rescan_exactly_one_cycle
    ⟨[{ id := 0, tagName := "BUTTON", type := "button", text := "foo" }], []⟩
    none none (some "zzz") true "t"
  exact ⟨(h.2.1 (by decide) (by decide) (by decide)).1,
    (h.2.2 (by decide) (by decide) (by decide)).1⟩

set_option maxHeartbeats 2000000 in
/-- C4: the click strategies are attempted in the fixed order 1–5, every
attempted strategy before the last one failed (so nothing runs after the
first success), a success means the last attempted strategy reported it,
when all five strategies fail the failure message aggregates exactly five
error entries, and every outcome yields one of the two message forms — never
an exception.  `hasSel` is `true`: a resolved snapshot element always carries
a non-empty generated selector. -/
theorem click_strategy_cascade (etype etext : String) (b : ClickBackend) :
    (clickExec etype etext true b).attempted.Sublist [1, 2, 3, 4, 5] ∧
    (∀ i ∈ (clickExec etype etext true b).attempted.dropLast,
      stratSuccess b i = false) ∧
    ((clickExec etype etext true b).success = true →
      ∃ i, (clickExec etype etext true b).attempted.getLast? = some i ∧
        stratSuccess b i = true) ∧
    ((∀ i ∈ ([1, 2, 3, 4, 5] : List Nat), stratSuccess b i = false) →
      (clickExec etype etext true b).attempted = [1, 2, 3, 4, 5] ∧
      (clickExec etype etext true b).success = false ∧
      (clickExec etype etext true b).errors.length = 5 ∧
      (clickExec etype etext true b).message =
        "Failed to click element after trying multiple methods. Errors: " ++
          String.intercalate "; " (clickExec etype etext true b).errors) ∧
    ((clickExec etype etext true b).message =
        "Clicked on element: " ++ etype ++ " with text '" ++ etext ++ "'" ∨
      (clickExec etype etext true b).message =
        "Failed to click element after trying multiple methods. Errors: " ++
          String.intercalate "; " (clickExec etype etext true b).errors) := by
  rcases b with ⟨s1, s2, s3, s4, s5⟩
  rcases s1 with _ | e1 <;> rcases s2 with _ | e2 <;> rcases s3 with _ | e3 <;>
    rcases s4 with _ | _ | e4 <;> rcases s5 with _ | e5 <;>
    simp [clickExec, stratSuccess]

/-- Witness for C4: with every strategy raising (strategy 4 reporting the
element missing), all five are attempted and five errors aggregate. -/
theorem click_strategy_cascade_witness :
    (clickExec "button" "Go" true
        ⟨.exn "a", .exn "b", .exn "c", .notFound, .exn "e"⟩).attempted =
      [1, 2, 3, 4, 5] ∧
    (clickExec "button" "Go" true
        ⟨.exn "a", .exn "b", .exn "c", .notFound, .exn "e"⟩).success = false ∧
    (clickExec "button" "Go" true
        ⟨.exn "a", .exn "b", .exn "c", .notFound, .exn "e"⟩).errors.length =
      5 := by
  have h := click_strategy_cascade "button" "Go"
    ⟨.exn "a", .exn "b", .exn "c", .notFound, .exn "e"⟩
  have h4 := h.2.2.2.1 (by decide)
  exact ⟨h4.1, h4.2.1, h4.2.2.1⟩

/-- Helper: when every inference response carries a tool call, the loop
consumes all its fuel, making one inference call per unit, and ends with the
exhaustion message. -/
theorem invokeAux_exhausts (llm : List Msg → AIMsg)
    (toolMap : List (String × ToolFn)) (N : Nat)
    (h : ∀ msgs, (llm msgs).tool_calls ≠ []) :
    ∀ (fuel : Nat) (msgs : List Msg) (calls : Nat),
      (invokeAux llm toolMap N fuel msgs calls).llmCalls = calls + fuel ∧
      (invokeAux llm toolMap N fuel msgs calls).output =
        "Max iterations (" ++ toString N ++ ") reached without completion" := by
  intro fuel
  induction fuel with
  | zero => intro msgs calls; simp [invokeAux]
  | succ n ih =>
    intro msgs calls
    have hne : ((llm msgs).tool_calls.isEmpty) = false := by
      simp [List.isEmpty_iff, h msgs]
    have hrec := ih (runToolCalls toolMap (llm msgs).tool_calls
      (msgs ++ [.ai (llm msgs).content (llm msgs).tool_calls])) (calls + 1)
    simp only [invokeAux, hne, Bool.false_eq_true, if_false]
    exact ⟨hrec.1.trans (by omega), hrec.2⟩

/-- C2: when every assistant response carries at least one tool call,
`AgentExecutor.invoke` makes exactly `max_iterations` inference calls, then
returns the fixed exhaustion message — and no further inference call. -/
theorem max_iterations_exhaustion (llm : List Msg → AIMsg)
    (toolMap : List (String × ToolFn)) (sys input : String) (n : Nat)
    (h : ∀ msgs, (llm msgs).tool_calls ≠ []) :
    (agentInvoke llm toolMap sys input n).llmCalls = n ∧
    (agentInvoke llm toolMap sys input n).output =
      "Max iterations (" ++ toString n ++ ") reached without completion" := by
  have hx := invokeAux_exhausts llm toolMap n h n [.system sys, .human input] 0
  exact ⟨hx.1.trans (by omega), hx.2⟩

/-- Witness for C2 with a constant always-tool-calling inference backend and
a ceiling of 2. -/
theorem max_iterations_exhaustion_witness :
    (agentInvoke (fun _ => ⟨"c", [⟨"t", "a", "i"⟩]⟩) [] "sys" "task"
      2).llmCalls = 2 ∧
    (agentInvoke (fun _ => ⟨"c", [⟨"t", "a", "i"⟩]⟩) [] "sys" "task"
      2).output = "Max iterations (2) reached without completion" := by
  have h := max_iterations_exhaustion (fun _ => ⟨"c", [⟨"t", "a", "i"⟩]⟩) []
    "sys" "task" 2 (fun msgs => by simp)
  exact ⟨h.1, h.2.trans (by decide)⟩

/-- C6: a tool call naming an unregistered tool appends a tool message
stating it was not found (carrying the call id); a registered tool that
raises appends an error-text tool message instead of propagating; and a turn
with tool calls proceeds to the next loop iteration after processing them. -/
theorem tool_dispatch_never_aborts (toolMap : List (String × ToolFn))
    (tc : ToolCall) (msgs : List Msg) :
    (toolMap.lookup tc.name = none →
      runToolCalls toolMap [tc] msgs =
        msgs ++ [.tool ("Tool " ++ tc.name ++ " not found") tc.id]) ∧
    (∀ f : ToolFn, toolMap.lookup tc.name = some f →
      ∀ e : String, f tc.args = .error e →
        runToolCalls toolMap [tc] msgs =
          msgs ++ [.tool ("Error executing " ++ tc.name ++ ": " ++ e) tc.id]) ∧
    (∀ (llm : List Msg → AIMsg) (N n calls : Nat),
      (llm msgs).tool_calls ≠ [] →
      invokeAux llm toolMap N (n + 1) msgs calls =
        invokeAux llm toolMap N n
          (runToolCalls toolMap (llm msgs).tool_calls
            (msgs ++ [.ai (llm msgs).content (llm msgs).tool_calls]))
          (calls + 1)) := by
  refine ⟨?_, ?_, ?_⟩
  · intro h
    simp [runToolCalls, dispatchToolCall, h]
  · intro f hf e he
    simp [runToolCalls, dispatchToolCall, hf, he]
  · intro llm N n calls h
    have hne : ((llm msgs).tool_calls.isEmpty) = false := by
      simp [List.isEmpty_iff, h]
    simp only [invokeAux, hne, Bool.false_eq_true, if_false]

/-- Witness for C6: an unknown tool name and a raising registered tool, both
converted to tool messages. -/
theorem tool_dispatch_never_aborts_witness :
    runToolCalls [("t", fun _ => Except.error "boom")]
        [⟨"u", "a", "1"⟩] [] = [.tool "Tool u not found" "1"] ∧
    runToolCalls [("t", fun _ => Except.error "boom")]
        [⟨"t", "a", "2"⟩] [] = [.tool "Error executing t: boom" "2"] := by
  refine ⟨?_, ?_⟩
  · exact (tool_dispatch_never_aborts [("t", fun _ => Except.error "boom")]
      ⟨"u", "a", "1"⟩ []).1 rfl
  · exact (tool_dispatch_never_aborts [("t", fun _ => Except.error "boom")]
      ⟨"t", "a", "2"⟩ []).2.1 (fun _ => Except.error "boom") rfl "boom" rfl

/-- Helper: `keepLast` keeps `min k (length)` entries. -/
theorem keepLast_length (k : Nat) (l : List MemMsg) :
    (keepLast k l).length = min k l.length := by
  simp only [keepLast, List.length_drop]
  omega

/-- Helper: under the size invariant, `add_message` keeps the last
`max_size` entries of the appended sequence. -/
theorem addMessage_messages (mem : PyMemory) (role content : String)
    (h : mem.messages.length ≤ mem.max_size) :
    (addMessage mem role content).messages =
      keepLast mem.max_size (mem.messages ++ [⟨role, content⟩]) := by
  unfold addMessage keepLast
  dsimp only
  by_cases hc :
      (mem.messages ++ [({ role := role, content := content } : MemMsg)]).length
        > mem.max_size
  · rw [if_pos hc]
    have h1 :
        (mem.messages ++
          [({ role := role, content := content } : MemMsg)]).length -
            mem.max_size = 1 := by
      simp only [List.length_append, List.length_singleton] at hc ⊢
      omega
    rw [h1, List.drop_one]
  · rw [if_neg hc]
    have h0 :
        (mem.messages ++
          [({ role := role, content := content } : MemMsg)]).length -
            mem.max_size = 0 := by
      simp only [List.length_append, List.length_singleton] at hc ⊢
      omega
    rw [h0, List.drop_zero]

/-- Helper: re-trimming an already trimmed prefix changes nothing. -/
theorem keepLast_append (k : Nat) (l l' : List MemMsg) :
    keepLast k (keepLast k l ++ l') = keepLast k (l ++ l') := by
  unfold keepLast
  rcases le_or_lt l.length k with h | h
  · have h0 : l.length - k = 0 := by omega
    simp [h0]
  · have hx : (l.drop (l.length - k)).length = k := by
      simp only [List.length_drop]
      omega
    rw [List.drop_append_eq_append_drop, List.drop_append_eq_append_drop,
      List.drop_drop, List.length_append, List.length_append, hx]
    congr 2 <;> omega

/-- Helper: `addExchange` appends the user/assistant pair then trims. -/
theorem addExchange_messages (mem : PyMemory) (hi ai : String)
    (h : mem.messages.length ≤ mem.max_size) :
    (addExchange mem hi ai).messages =
      keepLast mem.max_size (mem.messages ++ [⟨"user", hi⟩, ⟨"assistant", ai⟩])
    ∧ (addExchange mem hi ai).messages.length ≤ mem.max_size ∧
    (addExchange mem hi ai).max_size = mem.max_size := by
  have h1 := addMessage_messages mem "user" hi h
  have hlen1 : (addMessage mem "user" hi).messages.length ≤ mem.max_size := by
    rw [h1, keepLast_length]
    omega
  have hms : (addMessage mem "user" hi).max_size = mem.max_size := rfl
  have h2 := addMessage_messages (addMessage mem "user" hi) "assistant" ai
    (by rw [hms]; exact hlen1)
  refine ⟨?_, ?_, rfl⟩
  · show (addMessage (addMessage mem "user" hi) "assistant" ai).messages = _
    rw [h2, hms, h1, keepLast_append, List.append_assoc]
    rfl
  · show (addMessage (addMessage mem "user" hi) "assistant" ai).messages.length
      ≤ mem.max_size
    rw [h2, hms, keepLast_length]
    omega

/-- Helper: folding exchanges keeps the last `max_size` entries of the full
appended message sequence. -/
theorem addExchanges_messages (ps : List (String × String)) :
    ∀ mem : PyMemory, mem.messages.length ≤ mem.max_size →
      (addExchanges mem ps).messages =
        keepLast mem.max_size (mem.messages ++ exchangeMsgs ps) ∧
      (addExchanges mem ps).max_size = mem.max_size := by
  induction ps with
  | nil =>
    intro mem h
    refine ⟨?_, rfl⟩
    have h0 : mem.messages.length - mem.max_size = 0 := by omega
    simp [addExchanges, exchangeMsgs, keepLast, h0]
  | cons p rest ih =>
    intro mem h
    have hstep := addExchange_messages mem p.1 p.2 h
    have hrec := ih (addExchange mem p.1 p.2)
      (by rw [hstep.2.2]; exact hstep.2.1)
    constructor
    · have hms : (addExchanges mem (p :: rest)).messages =
          (addExchanges (addExchange mem p.1 p.2) rest).messages := rfl
      rw [hms, hrec.1, hstep.2.2, hstep.1, keepLast_append, List.append_assoc]
      rfl
    · have hms : (addExchanges mem (p :: rest)).max_size =
          (addExchanges (addExchange mem p.1 p.2) rest).max_size := rfl
      rw [hms, hrec.2, hstep.2.2]

/-- Helper: each exchange contributes two messages. -/
theorem exchangeMsgs_length (ps : List (String × String)) :
    (exchangeMsgs ps).length = 2 * ps.length := by
  induction ps with
  | nil => rfl
  | cons p rest ih =>
    simp only [exchangeMsgs, List.flatMap_cons] at ih ⊢
    simp [ih]
    omega

/-- Helper: for `n ≥ 1`, `get_last_n_messages` is the last-`n` suffix. -/
theorem getLastN_eq_keepLast (mem : PyMemory) (n : Nat) (hn : 1 ≤ n) :
    getLastN mem n = keepLast n mem.messages := by
  unfold getLastN keepLast
  by_cases hc : mem.messages.length ≥ n
  · have : n ≠ 0 := by omega
    simp [hc, this]
  · have h0 : mem.messages.length - n = 0 := by omega
    simp [hc, h0]

/-- C8 counterexample: with one stored exchange (two messages), requesting a
context window of 0 messages returns both stored messages (Python's
`messages[-0:]` is the whole list), not the claimed `min(0, stored) = 0`. -/
theorem context_window_zero_returns_all :
    (contextLines (addExchanges ⟨[], 10⟩ [("hi", "yo")]) 0).length = 2 ∧
    getContextWindow (addExchanges ⟨[], 10⟩ [("hi", "yo")]) 0 =
      "USER: hi\nASSISTANT: yo" ∧
    ("USER: hi\nASSISTANT: yo" : String) ≠ "" := by
  decide

/-- C8 (amended to requests of `n ≥ 1` messages): after appending `N`
exchanges the conversation memory stores the most recent
`min(2N, max_size)` messages in append order (oldest evicted first), and a
context window of `n ≥ 1` messages formats exactly the `min(n, stored)` most
recent ones, most-recent-last. -/
theorem session_memory_window (max_size : Nat) (ps : List (String × String))
    (n : Nat) (hn : 1 ≤ n) :
    (addExchanges ⟨[], max_size⟩ ps).messages =
      keepLast max_size (exchangeMsgs ps) ∧
    (addExchanges ⟨[], max_size⟩ ps).messages.length =
      min (2 * ps.length) max_size ∧
    getLastN (addExchanges ⟨[], max_size⟩ ps) n =
      keepLast n (addExchanges ⟨[], max_size⟩ ps).messages ∧
    (getLastN (addExchanges ⟨[], max_size⟩ ps) n).length =
      min n (addExchanges ⟨[], max_size⟩ ps).messages.length ∧
    contextLines (addExchanges ⟨[], max_size⟩ ps) n =
      (keepLast n (addExchanges ⟨[], max_size⟩ ps).messages).map
        (fun m => (pyUpper m.role) ++ ": " ++ truncate200 m.content) := by
  have hbase := addExchanges_messages ps ⟨[], max_size⟩ (by simp)
  have hmsgs : (addExchanges ⟨[], max_size⟩ ps).messages =
      keepLast max_size (exchangeMsgs ps) := by
    have := hbase.1
    simpa using this
  have hstore : (addExchanges ⟨[], max_size⟩ ps).messages.length =
      min (2 * ps.length) max_size := by
    rw [hmsgs, keepLast_length, exchangeMsgs_length]
    omega
  have hget := getLastN_eq_keepLast (addExchanges ⟨[], max_size⟩ ps) n hn
  refine ⟨hmsgs, hstore, hget, ?_, ?_⟩
  · rw [hget, keepLast_length]
  · unfold contextLines
    rw [hget]

/-- Witness for the amended C8: two exchanges into capacity 3 keep the last
three messages; a window of 2 yields 2 lines. -/
theorem session_memory_window_witness :
    (addExchanges ⟨[], 3⟩ [("a", "b"), ("c", "d")]).messages =
      [⟨"assistant", "b"⟩, ⟨"user", "c"⟩, ⟨"assistant", "d"⟩] ∧
    (getLastN (addExchanges ⟨[], 3⟩ [("a", "b"), ("c", "d")]) 2).length =
      2 := by
  have h := session_memory_window 3 [("a", "b"), ("c", "d")] 2 (by decide)
  refine ⟨h.1.trans (by decide), ?_⟩
  rw [h.2.2.2.1, h.2.1]
  decide

/-- C9 counterexample: for the docstring `"A.\n\nB.\nReturns: x"` the derived
description is `"A. B."` — it crosses the blank line separating paragraphs
and joins stripped lines with spaces — while the leading documentation
paragraph used verbatim is `"A."`. -/
theorem tool_description_not_leading_paragraph :
    toolDescription "A.\n\nB.\nReturns: x" = "A. B." ∧
    specLeadingParagraph "A.\n\nB.\nReturns: x" = "A." ∧
    ("A. B." : String) ≠ "A." := by
  decide

/-- Helper: the collection loop keeps the stripped non-empty lines strictly
before the first recognized section-header line. -/
theorem collectDescLines_eq (ls : List String) :
    collectDescLines ls =
      ((ls.map pyStrip).takeWhile (fun s => !isSectionHeader s)).filter
        (fun s => s ≠ "") := by
  induction ls with
  | nil => rfl
  | cons l rest ih =>
    by_cases h1 : isSectionHeader (pyStrip l)
    · simp [collectDescLines, h1]
    · have h3 : isSectionHeader "" = false := by decide
      by_cases h2 : pyStrip l = ""
      · simp [collectDescLines, h1, h2, h3, ih]
      · simp [collectDescLines, h1, h2, ih]

/-- C9 (amended): for a non-empty docstring the exposed tool description is
the space-joined sequence of all stripped non-empty docstring lines
preceding the first line that starts with a recognized section header
("Returns:", "Args:", …); blank lines are skipped rather than ending it, so
it can span several paragraphs and is not a verbatim excerpt. -/
theorem tool_description_collapses (doc : String) (h : doc ≠ "") :
    toolDescription doc =
      String.intercalate " "
        ((((pySplitLines (pyStrip doc)).map pyStrip).takeWhile
          (fun s => !isSectionHeader s)).filter (fun s => s ≠ "")) := by
  unfold toolDescription
  rw [if_pos h]
  dsimp only
  rw [collectDescLines_eq]
  split
  · rename_i hemp
    rw [List.isEmpty_iff] at hemp
    rw [hemp]
    rfl
  · rfl

/-- Witness for the amended C9 at a concrete multi-paragraph docstring. -/
theorem tool_description_collapses_witness :
    toolDescription "A.\n\nB.\nReturns: x\nC." = "A. B." := by
  have h := tool_description_collapses "A.\n\nB.\nReturns: x\nC." (by decide)
  exact h.trans (by decide)

end BrowserAgent
